import Mathlib

/-!
Verification of core modules of the polymarket-sniper bot against its
natural-language specification.

The development shallowly embeds the Python sources:
  * `shield.py`   — verification-tier aggregator and funding-graph (cabal) tier
  * `scoring.py`  — composite scorer and alert decision
  * `momentum.py` — pump-phase classifier, buy/sell ratio, staleness check
  * `network_layer.py` — ingestion-stream admission filter and reconnect backoff
  * `state.py`    — daily-quota store with UTC day rollover
  * `config.py`   — numeric thresholds

Machine floats of the source are modelled as rationals (the computations
involved are exact: additions, multiplications by small constants, and
comparisons on small decimal values), container dictionaries as structures,
and Python exceptions as explicit `Except`/sum cases.
-/

/-! ## Levels (shield.py, constants LEVEL_DANGER .. LEVEL_UNKNOWN) -/

/-- The four verdict levels used by every verification tier
(`shield.py` constants `LEVEL_DANGER`, `LEVEL_WARNING`, `LEVEL_OK`,
`LEVEL_UNKNOWN`). -/
inductive Level where
  | unknown
  | ok
  | warning
  | danger
deriving DecidableEq, Repr

/-- A single tier's verdict: a level plus a human-readable reason
(the `{"level": ..., "reason": ...}` dictionaries of `shield.py`). -/
structure TierVerdict where
  level : Level
  reason : String
deriving DecidableEq, Repr

/-! ## Verification-tier aggregator (shield.py, comprehensive_security_check) -/

/-- The tier verdicts consumed by `comprehensive_security_check`.
Tier 1 (RugCheck, `check_security`) returns a `(is_safe, reason)` pair rather
than a levelled verdict; tiers 2-9 return levelled verdicts.  Skipped tiers
(cabal cached / disabled, clone with no symbol, social with no token data,
news with no query, GoPlus failure) are represented by the OK / UNKNOWN
verdicts the corresponding branches of the source construct. -/
structure SecurityInput where
  rugcheck_is_safe : Bool
  rugcheck_reason : String
  holder_concentration : TierVerdict
  honeypot : TierVerdict
  bundled_tx : TierVerdict
  cabal_topology : TierVerdict
  clone_detection : TierVerdict
  social_presence : TierVerdict
  news_validation : TierVerdict
  goplus_security : TierVerdict
deriving DecidableEq, Repr

/-- The accumulator threaded through the aggregation: the `danger_flags`
and `warning_flags` lists and the running `safety_score` of the `results`
dictionary in `comprehensive_security_check`. -/
structure AggAcc where
  danger_flags : List String
  warning_flags : List String
  safety_score : ℤ
deriving DecidableEq, Repr

/-- One tier's contribution to the aggregate (`shield.py` lines 1072-1077,
1085-1090, ...): a danger verdict appends `tag ++ reason` to the danger flags
and subtracts the tier's danger penalty; a warning appends the bare reason to
the warning flags and subtracts the warning penalty; OK and UNKNOWN deduct
nothing. -/
def applyTier (tag : String) (dangerPenalty warningPenalty : ℤ)
    (v : TierVerdict) (acc : AggAcc) : AggAcc :=
  match v.level with
  | Level.danger =>
      { acc with
        danger_flags := acc.danger_flags ++ [tag ++ v.reason]
        safety_score := acc.safety_score - dangerPenalty }
  | Level.warning =>
      { acc with
        warning_flags := acc.warning_flags ++ [v.reason]
        safety_score := acc.safety_score - warningPenalty }
  | _ => acc

/-- The fixed ordered sequence of tiers 2-9 with their danger tag and the
danger / warning penalties hard-coded in `comprehensive_security_check`:
holder concentration (30, 10), honeypot (40, 15), bundled tx (25, 10),
cabal (30, 10, tagged), clone (20, 10, tagged), social (20, 10, tagged),
news (20, 10, tagged), GoPlus (20, 10, tagged). -/
def tierList (inp : SecurityInput) : List (String × ℤ × ℤ × TierVerdict) :=
  [ ("", 30, 10, inp.holder_concentration)
  , ("", 40, 15, inp.honeypot)
  , ("", 25, 10, inp.bundled_tx)
  , ("Cabal: ", 30, 10, inp.cabal_topology)
  , ("Clone: ", 20, 10, inp.clone_detection)
  , ("Social: ", 20, 10, inp.social_presence)
  , ("News: ", 20, 10, inp.news_validation)
  , ("GoPlus: ", 20, 10, inp.goplus_security) ]

/-- Folding step used by the aggregation. -/
def tierStep (acc : AggAcc) (t : String × ℤ × ℤ × TierVerdict) : AggAcc :=
  applyTier t.1 t.2.1 t.2.2.1 t.2.2.2 acc

/-- The accumulator after tier 1 (RugCheck): score starts at 100 with empty
flag lists; a failed RugCheck appends a tagged danger flag and deducts 35. -/
def rugcheckAcc (inp : SecurityInput) : AggAcc :=
  if inp.rugcheck_is_safe then
    { danger_flags := [], warning_flags := [], safety_score := 100 }
  else
    { danger_flags := ["RugCheck: " ++ inp.rugcheck_reason]
      warning_flags := []
      safety_score := 100 - 35 }

/-- The accumulator after all nine tiers. -/
def securityAcc (inp : SecurityInput) : AggAcc :=
  (tierList inp).foldl tierStep (rugcheckAcc inp)

/-- The aggregate result (`results` keys `is_safe`, `overall_level`,
`safety_score`, `danger_flags`, `warning_flags`). -/
structure SecurityResult where
  is_safe : Bool
  overall_level : Level
  safety_score : ℤ
  danger_flags : List String
  warning_flags : List String
deriving DecidableEq, Repr

/-- `comprehensive_security_check` (shield.py lines 1024-1271): run the nine
tiers, then derive the overall level (danger if any danger flag, else warning
if any warning flag, else ok), the pass flag (`is_safe` is false exactly when
danger flags exist), and clamp the score to [0, 100]. -/
def comprehensive_security_check (inp : SecurityInput) : SecurityResult :=
  let acc := securityAcc inp
  { is_safe := acc.danger_flags.isEmpty
    overall_level :=
      if acc.danger_flags.isEmpty then
        (if acc.warning_flags.isEmpty then Level.ok else Level.warning)
      else Level.danger
    safety_score := max 0 (min 100 acc.safety_score)
    danger_flags := acc.danger_flags
    warning_flags := acc.warning_flags }

lemma applyTier_danger_flags_ne (tag : String) (dp wp : ℤ) (v : TierVerdict)
    (acc : AggAcc) (h : acc.danger_flags ≠ []) :
    (applyTier tag dp wp v acc).danger_flags ≠ [] := by
  unfold applyTier
  cases v.level <;> simp_all

lemma applyTier_danger_level (tag : String) (dp wp : ℤ) (v : TierVerdict)
    (acc : AggAcc) (h : v.level = Level.danger) :
    (applyTier tag dp wp v acc).danger_flags ≠ [] := by
  unfold applyTier
  rw [h]
  simp

lemma foldl_tierStep_flags_ne (ts : List (String × ℤ × ℤ × TierVerdict))
    (acc : AggAcc) (h : acc.danger_flags ≠ []) :
    (ts.foldl tierStep acc).danger_flags ≠ [] := by
  induction ts generalizing acc with
  | nil => exact h
  | cons t ts ih =>
      exact ih _ (applyTier_danger_flags_ne _ _ _ _ _ h)

lemma foldl_tierStep_flags_ne_of_mem (ts : List (String × ℤ × ℤ × TierVerdict))
    (t : String × ℤ × ℤ × TierVerdict) (hd : t.2.2.2.level = Level.danger) :
    ∀ acc : AggAcc, t ∈ ts → (ts.foldl tierStep acc).danger_flags ≠ [] := by
  induction ts with
  | nil =>
      intro acc hmem
      cases hmem
  | cons u ts ih =>
      intro acc hmem
      rw [List.foldl_cons]
      rcases List.mem_cons.mp hmem with h | h
      · subst h
        exact foldl_tierStep_flags_ne _ _ (applyTier_danger_level _ _ _ _ _ hd)
      · exact ih _ h

lemma securityAcc_flags_ne (inp : SecurityInput)
    (h : inp.rugcheck_is_safe = false ∨
         inp.holder_concentration.level = Level.danger ∨
         inp.honeypot.level = Level.danger ∨
         inp.bundled_tx.level = Level.danger ∨
         inp.cabal_topology.level = Level.danger ∨
         inp.clone_detection.level = Level.danger ∨
         inp.social_presence.level = Level.danger ∨
         inp.news_validation.level = Level.danger ∨
         inp.goplus_security.level = Level.danger) :
    (securityAcc inp).danger_flags ≠ [] := by
  unfold securityAcc
  rcases h with h | h | h | h | h | h | h | h | h
  · apply foldl_tierStep_flags_ne
    unfold rugcheckAcc
    rw [h]
    simp
  · exact foldl_tierStep_flags_ne_of_mem _ ("", 30, 10, inp.holder_concentration) h _
      (by simp [tierList])
  · exact foldl_tierStep_flags_ne_of_mem _ ("", 40, 15, inp.honeypot) h _
      (by simp [tierList])
  · exact foldl_tierStep_flags_ne_of_mem _ ("", 25, 10, inp.bundled_tx) h _
      (by simp [tierList])
  · exact foldl_tierStep_flags_ne_of_mem _ ("Cabal: ", 30, 10, inp.cabal_topology) h _
      (by simp [tierList])
  · exact foldl_tierStep_flags_ne_of_mem _ ("Clone: ", 20, 10, inp.clone_detection) h _
      (by simp [tierList])
  · exact foldl_tierStep_flags_ne_of_mem _ ("Social: ", 20, 10, inp.social_presence) h _
      (by simp [tierList])
  · exact foldl_tierStep_flags_ne_of_mem _ ("News: ", 20, 10, inp.news_validation) h _
      (by simp [tierList])
  · exact foldl_tierStep_flags_ne_of_mem _ ("GoPlus: ", 20, 10, inp.goplus_security) h _
      (by simp [tierList])

/-- C1: if at least one tier of `comprehensive_security_check` produces a
danger-level verdict, the danger-flags list is non-empty, the returned
overall level is DANGER, and the pass flag `is_safe` is false — regardless
of the numeric safety score and of every other tier's verdict. -/
theorem comprehensive_check_danger_forces_fail (inp : SecurityInput)
    (h : inp.rugcheck_is_safe = false ∨
         inp.holder_concentration.level = Level.danger ∨
         inp.honeypot.level = Level.danger ∨
         inp.bundled_tx.level = Level.danger ∨
         inp.cabal_topology.level = Level.danger ∨
         inp.clone_detection.level = Level.danger ∨
         inp.social_presence.level = Level.danger ∨
         inp.news_validation.level = Level.danger ∨
         inp.goplus_security.level = Level.danger) :
    (comprehensive_security_check inp).danger_flags ≠ [] ∧
    (comprehensive_security_check inp).overall_level = Level.danger ∧
    (comprehensive_security_check inp).is_safe = false := by
  have hne := securityAcc_flags_ne inp h
  have hbe : (securityAcc inp).danger_flags.isEmpty = false := by
    simpa [List.isEmpty_iff] using hne
  unfold comprehensive_security_check
  simp [hbe, hne]

/-- Witness for C1: a concrete input whose honeypot tier is DANGER and every
other tier is OK, with the hypotheses discharged at that input. -/
theorem comprehensive_check_danger_forces_fail_witness :
    (comprehensive_security_check
      { rugcheck_is_safe := true
        rugcheck_reason := "ok"
        holder_concentration := ⟨Level.ok, "ok"⟩
        honeypot := ⟨Level.danger, "honeypot detected"⟩
        bundled_tx := ⟨Level.ok, "ok"⟩
        cabal_topology := ⟨Level.ok, "ok"⟩
        clone_detection := ⟨Level.ok, "ok"⟩
        social_presence := ⟨Level.ok, "ok"⟩
        news_validation := ⟨Level.ok, "ok"⟩
        goplus_security := ⟨Level.ok, "ok"⟩ }).danger_flags ≠ [] ∧
    (comprehensive_security_check
      { rugcheck_is_safe := true
        rugcheck_reason := "ok"
        holder_concentration := ⟨Level.ok, "ok"⟩
        honeypot := ⟨Level.danger, "honeypot detected"⟩
        bundled_tx := ⟨Level.ok, "ok"⟩
        cabal_topology := ⟨Level.ok, "ok"⟩
        clone_detection := ⟨Level.ok, "ok"⟩
        social_presence := ⟨Level.ok, "ok"⟩
        news_validation := ⟨Level.ok, "ok"⟩
        goplus_security := ⟨Level.ok, "ok"⟩ }).overall_level = Level.danger ∧
    (comprehensive_security_check
      { rugcheck_is_safe := true
        rugcheck_reason := "ok"
        holder_concentration := ⟨Level.ok, "ok"⟩
        honeypot := ⟨Level.danger, "honeypot detected"⟩
        bundled_tx := ⟨Level.ok, "ok"⟩
        cabal_topology := ⟨Level.ok, "ok"⟩
        clone_detection := ⟨Level.ok, "ok"⟩
        social_presence := ⟨Level.ok, "ok"⟩
        news_validation := ⟨Level.ok, "ok"⟩
        goplus_security := ⟨Level.ok, "ok"⟩ }).is_safe = false :=
  comprehensive_check_danger_forces_fail _ (Or.inr (Or.inr (Or.inl rfl)))

/-! ## Configuration thresholds (config.py) -/

/-- `config.MIN_COMPOSITE_SCORE = 70`. -/
def MIN_COMPOSITE_SCORE : ℚ := 70

/-- `config.MIN_INDIVIDUAL_SCORE = 40`. -/
def MIN_INDIVIDUAL_SCORE : ℚ := 40

/-- `config.MAX_1H_PRICE_CHANGE_PERCENT = 50`. -/
def MAX_1H_PRICE_CHANGE_PERCENT : ℚ := 50

/-- `config.MIN_1H_PRICE_CHANGE_PERCENT = 0.1`. -/
def MIN_1H_PRICE_CHANGE_PERCENT : ℚ := 1 / 10

/-- `config.MAX_TOKEN_AGE_HOURS = 24`. -/
def MAX_TOKEN_AGE_HOURS : ℚ := 24

/-- `config.CABAL_TOP_HOLDERS_LIMIT = 5`. -/
def CABAL_TOP_HOLDERS_LIMIT : ℕ := 5

/-- `config.CABAL_COMMON_FUNDER_THRESHOLD = 3`. -/
def CABAL_COMMON_FUNDER_THRESHOLD : ℕ := 3

/-! ## Composite scorer (scoring.py) -/

/-- A score record as returned by `calculate_composite_score`
(`scoring.py` lines 114-128): the composite plus the four entries of the
`individual_scores` dictionary, which every produced record populates in
the order safety, timing, momentum, relevance. -/
structure ScoreData where
  composite_score : ℚ
  safety : ℚ
  timing : ℚ
  momentum : ℚ
  relevance : ℚ
deriving DecidableEq, Repr

/-- `should_alert` (scoring.py lines 131-169): false when the composite is
at or below `MIN_COMPOSITE_SCORE`; false when the minimum of the four
individual scores is at or below `MIN_INDIVIDUAL_SCORE`; true otherwise. -/
def should_alert (sd : ScoreData) : Bool :=
  if sd.composite_score ≤ MIN_COMPOSITE_SCORE then false
  else
    let min_score := min (min sd.safety sd.timing) (min sd.momentum sd.relevance)
    if min_score ≤ MIN_INDIVIDUAL_SCORE then false
    else true

/-- The buy/sell-ratio component of the momentum sub-score in
`calculate_composite_score` (scoring.py lines 77-84).  A missing ratio
(`None`) maps to 50; a ratio below 1.0 maps to `20 + ratio * 80`; a ratio at
or above 1.0 maps to `min (80 + (ratio - 1) * 20) 100`.  The Python value
`float('inf')` (produced by `get_buy_sell_ratio` when sells = 0 < buys) falls
into the at-or-above branch, where `min(inf, 100)` evaluates to 100. -/
inductive BSRatio where
  | finite (q : ℚ)
  | inf
deriving DecidableEq, Repr

def ratio_score : Option BSRatio → ℚ
  | none => 50
  | some BSRatio.inf => 100
  | some (BSRatio.finite r) =>
      if r < 1 then 20 + r * 80
      else min (80 + (r - 1) * 20) 100

/-- C2: `should_alert` is true iff the composite is strictly above the
composite floor (70) and every one of the four sub-scores is strictly above
the per-dimension floor (40); and the record with composite 71 and momentum
exactly 40 is rejected. -/
theorem should_alert_iff :
    (∀ sd : ScoreData,
      should_alert sd = true ↔
        (MIN_COMPOSITE_SCORE < sd.composite_score ∧
         MIN_INDIVIDUAL_SCORE < sd.safety ∧
         MIN_INDIVIDUAL_SCORE < sd.timing ∧
         MIN_INDIVIDUAL_SCORE < sd.momentum ∧
         MIN_INDIVIDUAL_SCORE < sd.relevance)) ∧
    should_alert ⟨71, 80, 80, 40, 80⟩ = false := by
  constructor
  · intro sd
    unfold should_alert
    by_cases h1 : sd.composite_score ≤ MIN_COMPOSITE_SCORE
    · simp only [h1, if_true]
      constructor
      · intro h
        cases h
      · intro h
        exact absurd h.1 (not_lt.mpr h1)
    · simp only [h1, if_false]
      by_cases h2 :
          min (min sd.safety sd.timing) (min sd.momentum sd.relevance) ≤
            MIN_INDIVIDUAL_SCORE
      · simp only [h2, if_true]
        constructor
        · intro h
          cases h
        · intro h
          rcases h with ⟨_, hs, ht, hm, hr⟩
          have : MIN_INDIVIDUAL_SCORE <
              min (min sd.safety sd.timing) (min sd.momentum sd.relevance) := by
            exact lt_min (lt_min hs ht) (lt_min hm hr)
          exact absurd this (not_lt.mpr h2)
      · simp only [h2, if_false]
        push_neg at h1 h2
        rcases lt_min_iff.mp h2 with ⟨hab, hcd⟩
        rcases lt_min_iff.mp hab with ⟨hs, ht⟩
        rcases lt_min_iff.mp hcd with ⟨hm, hr⟩
        constructor
        · intro _
          exact ⟨h1, hs, ht, hm, hr⟩
        · intro _
          trivial
  · decide

/-- C8 counterexample: the buy/sell-ratio component of the momentum score is
NOT monotone non-decreasing across the 1.0 boundary: a ratio of 0.9 maps to
92 while the larger ratio 1.0 maps to 80. -/
theorem ratio_score_not_monotone_counterexample :
    (9 / 10 : ℚ) ≤ 1 ∧
    ratio_score (some (BSRatio.finite (9 / 10))) = 92 ∧
    ratio_score (some (BSRatio.finite 1)) = 80 ∧
    ¬ ratio_score (some (BSRatio.finite (9 / 10))) ≤
        ratio_score (some (BSRatio.finite 1)) := by
  refine ⟨by norm_num, ?_, ?_, ?_⟩ <;>
    simp [ratio_score] <;> norm_num

/-- C8 (amended): the ratio component is linear and monotone non-decreasing
on each piece separately — below the 1.0 anchor it rises from 20 toward 100
(formula `20 + r * 80`), and at or above 1.0 it rises from 80 capped at 100
(formula `min (80 + (r - 1) * 20) 100`) — but the two pieces do not join
monotonically: the left piece exceeds the right piece's value at the anchor
(0.9 maps to 92, 1.0 maps to 80). -/
theorem ratio_score_piecewise_monotone :
    (∀ r1 r2 : ℚ, r1 ≤ r2 → r2 < 1 →
      ratio_score (some (BSRatio.finite r1)) ≤
        ratio_score (some (BSRatio.finite r2))) ∧
    (∀ r1 r2 : ℚ, 1 ≤ r1 → r1 ≤ r2 →
      ratio_score (some (BSRatio.finite r1)) ≤
        ratio_score (some (BSRatio.finite r2))) ∧
    ratio_score (some (BSRatio.finite (9 / 10))) = 92 ∧
    ratio_score (some (BSRatio.finite 1)) = 80 := by
  refine ⟨?_, ?_, by simp [ratio_score]; norm_num, by simp [ratio_score]; norm_num⟩
  · intro r1 r2 h12 h2
    have h1 : r1 < 1 := lt_of_le_of_lt h12 h2
    simp only [ratio_score, if_pos h1, if_pos h2]
    nlinarith
  · intro r1 r2 h1 h12
    have h2 : (1 : ℚ) ≤ r2 := le_trans h1 h12
    simp only [ratio_score, if_neg (not_lt.mpr h1), if_neg (not_lt.mpr h2)]
    exact min_le_min (by nlinarith) le_rfl

/-- Witness for C8's amended theorem: both per-piece monotonicity conjuncts
applied at concrete ratios. -/
theorem ratio_score_piecewise_monotone_witness :
    ratio_score (some (BSRatio.finite 0)) ≤
      ratio_score (some (BSRatio.finite (1 / 2))) ∧
    ratio_score (some (BSRatio.finite 1)) ≤
      ratio_score (some (BSRatio.finite 2)) :=
  ⟨ratio_score_piecewise_monotone.1 0 (1 / 2) (by norm_num) (by norm_num),
   ratio_score_piecewise_monotone.2.1 1 2 (by norm_num) (by norm_num)⟩

/-! ## Momentum classifier (momentum.py) -/

/-- The fields of a DexScreener token payload read by `momentum.py`.
`priceChangeH1` models `priceChange.h1` (`none` when the key is missing or
its value cannot be converted to a float — `calculate_price_velocity` then
falls back to 0.0).  `txnsH1` models `txns.h1` (`none` when `txns` or
`txns.h1` is missing or not a dictionary); its two components are the `buys`
and `sells` counts, `none` when the field is missing or not convertible to an
int.  `createdAtAgeHours` models the token age derived by `check_staleness`
from the `createdAt` timestamp and the current clock (`none` when `createdAt`
is absent or unparsable, in which case the source uses age 0). -/
structure TokenData where
  priceChangeH1 : Option ℚ
  txnsH1 : Option (Option ℤ × Option ℤ)
  createdAtAgeHours : Option ℚ
deriving DecidableEq, Repr

/-- A snapshot argument as passed to the momentum functions.  `data` is a
dictionary payload; `malformed` is a payload on which attribute access raises
(e.g. the payload is not a dictionary, so `token_data.get` raises
`AttributeError`, which the helpers' `except (TypeError, ValueError)` clauses
do not catch and which therefore propagates to the caller). -/
inductive Snapshot where
  | data (td : TokenData)
  | malformed
deriving DecidableEq, Repr

/-- `calculate_price_velocity` (momentum.py lines 22-54): returns
`priceChange.h1` as a float, 0.0 when unavailable; raises on a malformed
payload (modelled as `Except.error`). -/
def calculate_price_velocity : Snapshot → Except Unit ℚ
  | Snapshot.data td => Except.ok (td.priceChangeH1.getD 0)
  | Snapshot.malformed => Except.error ()

/-- The pure part of `get_buy_sell_ratio` (momentum.py lines 57-105) on a
dictionary payload: `none` when `txns.h1` or either count is unavailable;
when sells = 0, `inf` if buys > 0 and the neutral ratio 1.0 otherwise;
otherwise the quotient buys / sells. -/
def buySellRatioData (td : TokenData) : Option BSRatio :=
  match td.txnsH1 with
  | none => none
  | some (buysOpt, sellsOpt) =>
      match buysOpt, sellsOpt with
      | some buys, some sells =>
          if sells = 0 then
            (if 0 < buys then some BSRatio.inf else some (BSRatio.finite 1))
          else some (BSRatio.finite ((buys : ℚ) / (sells : ℚ)))
      | _, _ => none

/-- `get_buy_sell_ratio`: raises on a malformed payload, otherwise returns
the optional ratio. -/
def get_buy_sell_ratio : Snapshot → Except Unit (Option BSRatio)
  | Snapshot.data td => Except.ok (buySellRatioData td)
  | Snapshot.malformed => Except.error ()

/-- The test `ratio is not None and ratio < 1.0` of `classify_pump_phase`:
false for a missing ratio and for `float('inf')`. -/
def ratioBelowOne : Option BSRatio → Bool
  | some (BSRatio.finite q) => decide (q < 1)
  | some BSRatio.inf => false
  | none => false

/-- `classify_pump_phase` (momentum.py lines 108-158): LATE when the 1-hour
price change strictly exceeds `MAX_1H_PRICE_CHANGE_PERCENT`; LATE when the
buy/sell ratio is computed and below 1.0; EARLY otherwise; LATE when the
computation raises (the `except Exception` branch). -/
def classify_pump_phase (s : Snapshot) : String :=
  match calculate_price_velocity s with
  | Except.error _ => "LATE"
  | Except.ok price_change =>
      match get_buy_sell_ratio s with
      | Except.error _ => "LATE"
      | Except.ok ratio =>
          if MAX_1H_PRICE_CHANGE_PERCENT < price_change then "LATE"
          else if ratioBelowOne ratio then "LATE"
          else "EARLY"

/-- `check_staleness` (momentum.py lines 161-223): stale iff the token age
exceeds `MAX_TOKEN_AGE_HOURS` and the absolute 1-hour price change is below
`MIN_1H_PRICE_CHANGE_PERCENT`; the age is the explicit argument when given,
else the age derived from `createdAt`, else 0; any exception inside the body
(e.g. a malformed payload) yields `False`. -/
def check_staleness (s : Snapshot) (token_age_hours : Option ℚ) : Bool :=
  match s with
  | Snapshot.malformed => false
  | Snapshot.data td =>
      let price_change := td.priceChangeH1.getD 0
      let age :=
        match token_age_hours with
        | some a => a
        | none => td.createdAtAgeHours.getD 0
      decide (MAX_TOKEN_AGE_HOURS < age) &&
        decide (|price_change| < MIN_1H_PRICE_CHANGE_PERCENT)

/-- C4 counterexample: on a snapshot whose buy/sell ratio cannot be computed
(`txns` data missing, so `get_buy_sell_ratio` returns `None`) and whose price
change is 0, `classify_pump_phase` returns EARLY, not the LATE default the
claim asserts for failed ratio computations. -/
theorem classify_pump_phase_none_ratio_counterexample :
    get_buy_sell_ratio (Snapshot.data ⟨some 0, none, none⟩) = Except.ok none ∧
    classify_pump_phase (Snapshot.data ⟨some 0, none, none⟩) = "EARLY" := by
  constructor
  · rfl
  · rfl

/-- C4 (amended): `classify_pump_phase` returns LATE when the 1-hour price
change strictly exceeds the ceiling, regardless of the ratio; LATE when the
price change is at or below the ceiling and the computed ratio is below 1.0;
EARLY otherwise — including when the ratio cannot be computed (`None`), in
which case the ratio test is skipped; only a snapshot on which the
computation raises defaults to LATE. -/
theorem classify_pump_phase_spec :
    (∀ td : TokenData, MAX_1H_PRICE_CHANGE_PERCENT < td.priceChangeH1.getD 0 →
      classify_pump_phase (Snapshot.data td) = "LATE") ∧
    (∀ td : TokenData, td.priceChangeH1.getD 0 ≤ MAX_1H_PRICE_CHANGE_PERCENT →
      ratioBelowOne (buySellRatioData td) = true →
      classify_pump_phase (Snapshot.data td) = "LATE") ∧
    (∀ td : TokenData, td.priceChangeH1.getD 0 ≤ MAX_1H_PRICE_CHANGE_PERCENT →
      ratioBelowOne (buySellRatioData td) = false →
      classify_pump_phase (Snapshot.data td) = "EARLY") ∧
    classify_pump_phase Snapshot.malformed = "LATE" := by
  refine ⟨?_, ?_, ?_, rfl⟩
  · intro td h
    simp [classify_pump_phase, calculate_price_velocity, get_buy_sell_ratio, h]
  · intro td h hr
    simp [classify_pump_phase, calculate_price_velocity, get_buy_sell_ratio,
      not_lt.mpr h, hr]
  · intro td h hr
    simp [classify_pump_phase, calculate_price_velocity, get_buy_sell_ratio,
      not_lt.mpr h, hr]

/-- Witness for C4's amended theorem: each hypothetical conjunct applied at a
concrete snapshot (price change 60 for the first; price change 10 with ratio
0.5 for the second; price change 10 with ratio 2 for the third). -/
theorem classify_pump_phase_spec_witness :
    classify_pump_phase (Snapshot.data ⟨some 60, some (some 1, some 2), none⟩) = "LATE" ∧
    classify_pump_phase (Snapshot.data ⟨some 10, some (some 1, some 2), none⟩) = "LATE" ∧
    classify_pump_phase (Snapshot.data ⟨some 10, some (some 4, some 2), none⟩) = "EARLY" :=
  ⟨classify_pump_phase_spec.1 _ (by norm_num [MAX_1H_PRICE_CHANGE_PERCENT]),
   classify_pump_phase_spec.2.1 _ (by norm_num [MAX_1H_PRICE_CHANGE_PERCENT])
     (by norm_num [buySellRatioData, ratioBelowOne]),
   classify_pump_phase_spec.2.2.1 _ (by norm_num [MAX_1H_PRICE_CHANGE_PERCENT])
     (by norm_num [buySellRatioData, ratioBelowOne])⟩

/-- C9 counterexample: when both the 1-hour buy count and sell count are
zero, `get_buy_sell_ratio` returns the neutral finite ratio 1.0, not an
effectively infinite one. -/
theorem buy_sell_ratio_zero_zero_counterexample :
    get_buy_sell_ratio (Snapshot.data ⟨none, some (some 0, some 0), none⟩) =
      Except.ok (some (BSRatio.finite 1)) ∧
    BSRatio.finite 1 ≠ BSRatio.inf := by
  constructor
  · rfl
  · intro h
    cases h

/-- C9 (amended): for every snapshot whose 1-hour sell count is zero,
`get_buy_sell_ratio` raises no division-by-zero error: it returns the
effectively infinite ratio when the buy count is positive and the neutral
ratio 1.0 when the buy count is zero (or negative). -/
theorem buy_sell_ratio_zero_sells (pc : Option ℚ) (age : Option ℚ) (b : ℤ) :
    get_buy_sell_ratio (Snapshot.data ⟨pc, some (some b, some 0), age⟩) =
      Except.ok (if 0 < b then some BSRatio.inf else some (BSRatio.finite 1)) := by
  simp [get_buy_sell_ratio, buySellRatioData]

/-- C10: `check_staleness` never propagates an exception — on every input on
which its internal computation raises (a malformed payload) it returns false,
keeping the candidate in the pipeline, whereas `classify_pump_phase` defaults
to LATE on the same input. -/
theorem check_staleness_fails_open (age : Option ℚ) :
    check_staleness Snapshot.malformed age = false ∧
    classify_pump_phase Snapshot.malformed = "LATE" :=
  ⟨rfl, rfl⟩

/-! ## Ingestion stream (network_layer.py) -/

/-- Python `s.lower()` (character-wise lower-casing; ASCII suffices for the
program-log payloads and keywords involved). -/
def strLower (s : String) : String := ⟨s.data.map Char.toLower⟩

/-- Python `s.strip()`: whitespace removed from both ends. -/
def pyStrip (s : String) : String :=
  ⟨((s.data.dropWhile Char.isWhitespace).reverse.dropWhile Char.isWhitespace).reverse⟩

/-- Python truthiness of `s.strip()`, negated: `not s.strip()` holds exactly
when every character of `s` is whitespace. -/
def isBlank (s : String) : Bool := s.data.all Char.isWhitespace

/-- Python's substring test `needle in hay`. -/
def containsSubstr (hay needle : String) : Bool := decide (needle.data <:+: hay.data)

/-- `WebSocketManager.update_narratives` (network_layer.py lines 122-135):
`{kw.lower().strip() for kw in keywords if kw.strip()}` — keep the keywords
that are not blank, lower-case and strip each, and deduplicate (the Python
value is a set; iteration order is not depended on). -/
def update_narratives (keywords : List String) : List String :=
  ((keywords.filter (fun kw => !(isBlank kw))).map
    (fun kw => pyStrip (strLower kw))).dedup

/-- The `search_text` built by `_match_narrative` (network_layer.py lines
428-433): the lower-cased name followed by a space when the name is present
and non-empty (Python truthiness), then the lower-cased symbol when present
and non-empty. -/
def searchText (name symbol : Option String) : String :=
  (match name with
   | some n => if n.isEmpty then "" else strLower n ++ " "
   | none => "") ++
  (match symbol with
   | some s => if s.isEmpty then "" else strLower s
   | none => "")

/-- `_match_narrative` (network_layer.py lines 413-443): `None` when no
narratives are configured; `None` when the search text is blank; otherwise
the first active keyword occurring as a substring of the search text. -/
def match_narrative (narratives : List String) (name symbol : Option String) :
    Option String :=
  if narratives.isEmpty then none
  else
    let st := searchText name symbol
    if isBlank st then none
    else narratives.find? (fun kw => containsSubstr st kw)

/-- The admission decision of `_process_message` (network_layer.py line 314,
`if matched_keyword or not self._active_narratives`): the descriptor is
forwarded to the callback iff a keyword matched or the narrative set is
empty. -/
def is_forwarded (narratives : List String) (name symbol : Option String) : Bool :=
  (match_narrative narratives name symbol).isSome || narratives.isEmpty

lemma blank_no_nonblank_substr (st kw : String) (hst : isBlank st = true)
    (hkw : isBlank kw = false) : containsSubstr st kw = false := by
  simp only [containsSubstr, decide_eq_false_iff_not]
  intro hinf
  simp only [isBlank, List.all_eq_true] at hst
  have hall : kw.data.all Char.isWhitespace = true :=
    List.all_eq_true.mpr (fun c hc => hst c (hinf.subset hc))
  simp [isBlank, hall] at hkw

/-- C5 counterexample: with the single active keyword `"a b"` (a keyword
containing a space), the descriptor with name `"A"` and symbol `"B"` is
forwarded — the keyword matches the concatenated name-space-symbol text —
even though no active keyword is a substring of the name alone or of the
symbol alone, contradicting the claim that such a descriptor is never
forwarded. -/
theorem admission_not_per_field_counterexample :
    is_forwarded ["a b"] (some "A") (some "B") = true ∧
    (["a b"] : List String) ≠ [] ∧
    (∀ kw ∈ (["a b"] : List String),
      containsSubstr (strLower "A") kw = false ∧
      containsSubstr (strLower "B") kw = false) := by
  refine ⟨?_, by simp, ?_⟩
  · decide
  · decide

/-- C5 (amended): provided every active keyword is non-blank (which
`update_narratives` guarantees), a descriptor is forwarded iff the narrative
set is empty (pass-through mode) or some active keyword occurs as a
case-insensitive substring of the single search text formed from the
lower-cased name, a space, and the lower-cased symbol; a keyword containing a
space may match across the name/symbol boundary without matching either field
alone. -/
theorem admission_iff (narratives : List String) (name symbol : Option String)
    (hkw : ∀ kw ∈ narratives, isBlank kw = false) :
    is_forwarded narratives name symbol = true ↔
      (narratives = [] ∨
        ∃ kw ∈ narratives, containsSubstr (searchText name symbol) kw = true) := by
  by_cases hemp : narratives = []
  · subst hemp
    simp [is_forwarded, match_narrative]
  · have hbe : narratives.isEmpty = false := by
      simpa [List.isEmpty_iff] using hemp
    unfold is_forwarded match_narrative
    rw [hbe]
    simp only [Bool.false_eq_true, if_false, Bool.or_false]
    by_cases hbl : isBlank (searchText name symbol) = true
    · rw [if_pos hbl]
      simp only [Option.isSome_none, Bool.false_eq_true, false_iff]
      rintro (h | ⟨kw, hmem, hc⟩)
      · exact hemp h
      · rw [blank_no_nonblank_substr _ _ hbl (hkw kw hmem)] at hc
        cases hc
    · rw [if_neg hbl]
      rw [List.find?_isSome]
      constructor
      · rintro ⟨kw, hmem, hc⟩
        exact Or.inr ⟨kw, hmem, hc⟩
      · rintro (h | ⟨kw, hmem, hc⟩)
        · exact absurd h hemp
        · exact ⟨kw, hmem, hc⟩

/-- Witness for C5's amended theorem: the keyword hypothesis discharged for
the concrete narrative set `["trump"]` against the descriptor named
`"Trump Coin"`. -/
theorem admission_iff_witness :
    (∀ kw ∈ (["trump"] : List String), isBlank kw = false) ∧
    (is_forwarded ["trump"] (some "Trump Coin") none = true ↔
      ((["trump"] : List String) = [] ∨
        ∃ kw ∈ (["trump"] : List String),
          containsSubstr (searchText (some "Trump Coin") none) kw = true)) :=
  ⟨by decide, admission_iff ["trump"] (some "Trump Coin") none (by decide)⟩

/-! ## Reconnect backoff (network_layer.py) -/

/-- `INITIAL_RECONNECT_DELAY = 1.0` (network_layer.py line 44). -/
def INITIAL_RECONNECT_DELAY : ℚ := 1

/-- `MAX_RECONNECT_DELAY = 60.0` (network_layer.py line 45). -/
def MAX_RECONNECT_DELAY : ℚ := 60

/-- `BACKOFF_FACTOR = 2.0` (network_layer.py line 46). -/
def BACKOFF_FACTOR : ℚ := 2

/-- The two observable transitions of the reconnect state machine that touch
`_reconnect_delay`: a successful connect (line 200, reset to the initial
delay) and a connection failure handled by `_handle_reconnect` (lines
445-454, sleep the stored delay then double it up to the ceiling). -/
inductive ConnEvent where
  | connectOk
  | connectFail
deriving DecidableEq, Repr

/-- The delay update of `_handle_reconnect`:
`min(delay * BACKOFF_FACTOR, MAX_RECONNECT_DELAY)`. -/
def next_reconnect_delay (d : ℚ) : ℚ :=
  min (d * BACKOFF_FACTOR) MAX_RECONNECT_DELAY

/-- One step of the stored `_reconnect_delay`. -/
def wsStep (d : ℚ) : ConnEvent → ℚ
  | ConnEvent.connectOk => INITIAL_RECONNECT_DELAY
  | ConnEvent.connectFail => next_reconnect_delay d

/-- The stored delay after a sequence of connection events. -/
def runEvents (d : ℚ) (es : List ConnEvent) : ℚ := es.foldl wsStep d

/-- The delay slept at the n-th consecutive failure counted from a reset
state: `_handle_reconnect` sleeps the stored delay before doubling it, so the
n-th failure sleeps the delay stored after n-1 failures starting from the
initial delay. -/
def delay_slept_at_failure (n : ℕ) : ℚ :=
  runEvents INITIAL_RECONNECT_DELAY (List.replicate (n - 1) ConnEvent.connectFail)

lemma runEvents_replicate_fail (k : ℕ) :
    runEvents INITIAL_RECONNECT_DELAY (List.replicate k ConnEvent.connectFail) =
      min (INITIAL_RECONNECT_DELAY * BACKOFF_FACTOR ^ k) MAX_RECONNECT_DELAY := by
  induction k with
  | zero =>
      simp [runEvents, INITIAL_RECONNECT_DELAY, MAX_RECONNECT_DELAY]
  | succ k ih =>
      unfold runEvents at ih ⊢
      rw [List.replicate_succ', List.foldl_append, ih]
      simp only [List.foldl_cons, List.foldl_nil, wsStep, next_reconnect_delay]
      rw [min_mul_of_nonneg _ _ (by norm_num [BACKOFF_FACTOR] : (0:ℚ) ≤ BACKOFF_FACTOR)]
      rw [min_assoc]
      have h60 : min (MAX_RECONNECT_DELAY * BACKOFF_FACTOR) MAX_RECONNECT_DELAY =
          MAX_RECONNECT_DELAY := by
        norm_num [MAX_RECONNECT_DELAY, BACKOFF_FACTOR]
      rw [h60, mul_assoc, ← pow_succ]

/-- C7: after a successful connect (which stores the initial delay) followed
by n-1 consecutive failures — regardless of any earlier event history — the
stored delay slept at the n-th consecutive failure is
`min(initial * factor^(n-1), ceiling)`, i.e. 1, 2, 4, ... capped at 60; and a
successful connect always resets the stored delay to the initial value. -/
theorem reconnect_backoff_spec :
    (∀ n : ℕ, 1 ≤ n →
      delay_slept_at_failure n =
        min (INITIAL_RECONNECT_DELAY * BACKOFF_FACTOR ^ (n - 1)) MAX_RECONNECT_DELAY) ∧
    (∀ (d : ℚ) (es : List ConnEvent) (n : ℕ), 1 ≤ n →
      runEvents d (es ++ ConnEvent.connectOk ::
          List.replicate (n - 1) ConnEvent.connectFail) =
        min (INITIAL_RECONNECT_DELAY * BACKOFF_FACTOR ^ (n - 1)) MAX_RECONNECT_DELAY) ∧
    (∀ d : ℚ, wsStep d ConnEvent.connectOk = INITIAL_RECONNECT_DELAY) := by
  refine ⟨fun n _ => runEvents_replicate_fail (n - 1), ?_, fun d => rfl⟩
  intro d es n _
  rw [runEvents, List.foldl_append, List.foldl_cons]
  exact runEvents_replicate_fail (n - 1)

/-- Witness for C7: the backoff formula applied at the 7th consecutive
failure (delay 60, the cap), the trace form applied after a concrete prior
history, and the reset applied at a concrete stored delay. -/
theorem reconnect_backoff_spec_witness :
    delay_slept_at_failure 7 =
      min (INITIAL_RECONNECT_DELAY * BACKOFF_FACTOR ^ 6) MAX_RECONNECT_DELAY ∧
    runEvents 60 ([ConnEvent.connectFail] ++ ConnEvent.connectOk ::
        List.replicate 1 ConnEvent.connectFail) =
      min (INITIAL_RECONNECT_DELAY * BACKOFF_FACTOR ^ 1) MAX_RECONNECT_DELAY ∧
    wsStep 60 ConnEvent.connectOk = INITIAL_RECONNECT_DELAY :=
  ⟨reconnect_backoff_spec.1 7 (by norm_num),
   reconnect_backoff_spec.2.1 60 [ConnEvent.connectFail] 2 (by norm_num),
   reconnect_backoff_spec.2.2 60⟩

/-! ## Quota store (state.py, StateManager) -/

/-- The `stats` block of the state record (state.py lines 45-57). -/
structure Stats where
  tokens_scanned : ℕ
  tokens_rejected : ℕ
  rejected_by_reason : List (String × ℕ)
deriving DecidableEq, Repr

/-- The default `stats` block: all counters zero. -/
def default_stats : Stats :=
  { tokens_scanned := 0
    tokens_rejected := 0
    rejected_by_reason :=
      [ ("low_liquidity", 0), ("late_pump", 0), ("stale", 0)
      , ("security_fail", 0), ("low_score", 0), ("daily_limit", 0)
      , ("duplicate", 0), ("no_data", 0) ] }

/-- The persisted state record (state.py, `get_default_state`): schema
version, current UTC date, alert count, alerted-token set, cabal-traced-token
set, statistics, and last-reset timestamp (the static `metadata` block is
omitted — no operation reads it). -/
structure BotState where
  schema_version : String
  date : String
  alerts_today : ℕ
  alerted_tokens : List String
  processed_cabal_tokens : List String
  stats : Stats
  last_reset : String
deriving DecidableEq, Repr

/-- `StateManager.get_default_state` (state.py lines 30-64), parameterised by
the current UTC date and timestamp. -/
def get_default_state (today now : String) : BotState :=
  { schema_version := "1.1"
    date := today
    alerts_today := 0
    alerted_tokens := []
    processed_cabal_tokens := []
    stats := default_stats
    last_reset := now }

/-- `StateManager._check_date_reset` (state.py lines 117-140): when the
stored date differs from the current UTC date, reset the alert counter, clear
both token sets, reset the statistics and stamp the reset time — in memory
only; the function does not write the state file. -/
def check_date_reset (today now : String) (st : BotState) : BotState :=
  if st.date ≠ today then
    { st with
      date := today
      alerts_today := 0
      alerted_tokens := []
      processed_cabal_tokens := []
      stats := default_stats
      last_reset := now }
  else st

/-- `StateManager._migrate_state` (state.py lines 142-187): a schema-1.0
record gains the (already-present-in-this-typed-model) 1.1 fields, is stamped
with schema 1.1, and is saved to disk; any other record is returned
unchanged without saving.  The boolean records whether the migration wrote
the state file. -/
def migrate_state (st : BotState) : BotState × Bool :=
  if st.schema_version = "1.0" then ({ st with schema_version := "1.1" }, true)
  else (st, false)

/-- `StateManager.load_state` (state.py lines 66-96), with the state file
modelled as `Option BotState` (`none` covers both a missing file and an
unparsable one — both paths create and save a fresh default).  Returns the
in-memory state handed to the caller together with the state-file contents
after the call: a fresh default is saved when the file was absent, the
migrated (pre-reset) record is saved when a 1.0 schema was migrated, and
otherwise the file is left untouched — in particular `_check_date_reset`'s
rollover is never persisted by a load. -/
def load_state (file : Option BotState) (today now : String) :
    BotState × Option BotState :=
  match file with
  | none =>
      let st := get_default_state today now
      (st, some st)
  | some st =>
      let m := migrate_state st
      let st2 := check_date_reset today now m.1
      (st2, if m.2 then some m.1 else some st)

/-- `StateManager.can_alert` (state.py lines 189-208): loads (and hence
rolls over) the state, then answers `alerts_today < max_per_day`.  The second
component is the state-file contents after the call. -/
def can_alert (max_per_day : ℤ) (file : Option BotState) (today now : String) :
    Bool × Option BotState :=
  let r := load_state file today now
  (decide ((r.1.alerts_today : ℤ) < max_per_day), r.2)

/-- `StateManager.was_alerted_today` (state.py lines 237-248). -/
def was_alerted_today (token_mint : String) (file : Option BotState)
    (today now : String) : Bool × Option BotState :=
  let r := load_state file today now
  (r.1.alerted_tokens.contains token_mint, r.2)

/-- `StateManager.get_alerts_remaining` (state.py lines 250-262):
`max(0, max_per_day - alerts_today)`. -/
def get_alerts_remaining (max_per_day : ℤ) (file : Option BotState)
    (today now : String) : ℤ × Option BotState :=
  let r := load_state file today now
  (max 0 (max_per_day - (r.1.alerts_today : ℤ)), r.2)

/-- `StateManager.was_cabal_traced` (state.py lines 293-304). -/
def was_cabal_traced (token_mint : String) (file : Option BotState)
    (today now : String) : Bool × Option BotState :=
  let r := load_state file today now
  (r.1.processed_cabal_tokens.contains token_mint, r.2)

/-- A schema-1.1 state file recording 3 alerts on an earlier date. -/
def staleStateExample : BotState :=
  { schema_version := "1.1"
    date := "2025-01-01"
    alerts_today := 3
    alerted_tokens := ["MINTA"]
    processed_cabal_tokens := ["MINTB"]
    stats := default_stats
    last_reset := "2025-01-01T00:00:00" }

/-- C3 counterexample: reading `can_alert` on a later UTC date answers from
the rolled-over in-memory state (the answer is true although the stored count
equals the daily maximum), but the state file after the read still holds the
old record — old date, count 3, non-empty sets — so the reset state is NOT
persisted before the answer is returned. -/
theorem quota_reset_not_persisted_counterexample :
    (can_alert 3 (some staleStateExample) "2025-01-02" "2025-01-02T00:00:01").1
      = true ∧
    (can_alert 3 (some staleStateExample) "2025-01-02" "2025-01-02T00:00:01").2
      = some staleStateExample ∧
    staleStateExample.date ≠ "2025-01-02" ∧
    staleStateExample.alerts_today = 3 ∧
    staleStateExample.alerted_tokens ≠ [] ∧
    staleStateExample.processed_cabal_tokens ≠ [] := by
  refine ⟨rfl, rfl, ?_, rfl, ?_, ?_⟩ <;> decide

/-- C3 (amended): every read (`can_alert`, `was_alerted_today`,
`get_alerts_remaining`, `was_cabal_traced`) performs the day-rollover check
first and computes its answer from the reset in-memory state — count 0, both
identity sets empty, date advanced — but the reset state is not written to
the durable state file during the read (for a schema-1.1 file the file
contents are unchanged); persistence of the rolled-over record happens only
on a later mutating call. -/
theorem quota_reads_roll_over_in_memory_only (st : BotState) (today now : String)
    (maxd : ℤ) (mint : String) (hdate : st.date ≠ today)
    (hschema : st.schema_version ≠ "1.0") :
    (load_state (some st) today now).1.date = today ∧
    (load_state (some st) today now).1.alerts_today = 0 ∧
    (load_state (some st) today now).1.alerted_tokens = [] ∧
    (load_state (some st) today now).1.processed_cabal_tokens = [] ∧
    (load_state (some st) today now).2 = some st ∧
    (can_alert maxd (some st) today now).1 = decide (0 < maxd) ∧
    (was_alerted_today mint (some st) today now).1 = false ∧
    (get_alerts_remaining maxd (some st) today now).1 = max 0 maxd ∧
    (was_cabal_traced mint (some st) today now).1 = false := by
  have hm : migrate_state st = (st, false) := by
    unfold migrate_state
    rw [if_neg hschema]
  have hr : check_date_reset today now st =
      { st with
        date := today
        alerts_today := 0
        alerted_tokens := []
        processed_cabal_tokens := []
        stats := default_stats
        last_reset := now } := by
    unfold check_date_reset
    rw [if_pos hdate]
  simp [load_state, can_alert, was_alerted_today, get_alerts_remaining,
    was_cabal_traced, hm, hr]

/-- Witness for C3's amended theorem: the hypotheses discharged at the
concrete stale schema-1.1 state file read on the next UTC day. -/
theorem quota_reads_roll_over_in_memory_only_witness :
    staleStateExample.date ≠ "2025-01-02" ∧
    staleStateExample.schema_version ≠ "1.0" ∧
    (load_state (some staleStateExample) "2025-01-02" "2025-01-02T00:00:01").2
      = some staleStateExample ∧
    (can_alert 3 (some staleStateExample) "2025-01-02" "2025-01-02T00:00:01").1
      = decide ((0:ℤ) < 3) :=
  ⟨by decide, by decide,
   (quota_reads_roll_over_in_memory_only staleStateExample "2025-01-02"
      "2025-01-02T00:00:01" 3 "M" (by decide) (by decide)).2.2.2.2.1,
   (quota_reads_roll_over_in_memory_only staleStateExample "2025-01-02"
      "2025-01-02T00:00:01" 3 "M" (by decide) (by decide)).2.2.2.2.2.1⟩

/-! ## Funding-graph (cabal) tier (shield.py, check_cabal_topology) -/

/-- The result dictionary of `check_cabal_topology` (shield.py lines
870-964).  `common_funders` keeps each common funder with its holder count. -/
structure CabalResult where
  is_cabal : Bool
  level : Level
  common_funders : List (String × ℕ)
  reason : String
deriving DecidableEq, Repr

/-- The funders resolved for the checked holders: the input is the list of
holder addresses paired with the outcome of `_get_funding_source` for each
(`none` models a failed or erroring trace, which the loop counts as unknown);
only the first `CABAL_TOP_HOLDERS_LIMIT` holders are traced
(`holder_addresses[:config.CABAL_TOP_HOLDERS_LIMIT]`). -/
def cabalResolved (holders : List (String × Option String)) : List String :=
  (holders.take CABAL_TOP_HOLDERS_LIMIT).filterMap Prod.snd

/-- The `common_funders` list: the funders to which at least
`CABAL_COMMON_FUNDER_THRESHOLD` of the checked holders resolve, paired with
their holder counts (the dictionary `funder_to_holders` groups the checked
holders by funder, so a funder's holder count is its multiplicity among the
resolved funders). -/
def cabalCommonFunders (holders : List (String × Option String)) :
    List (String × ℕ) :=
  ((cabalResolved holders).dedup.filter
    (fun f => decide (CABAL_COMMON_FUNDER_THRESHOLD ≤ (cabalResolved holders).count f))).map
    (fun f => (f, (cabalResolved holders).count f))

/-- `check_cabal_topology` (shield.py lines 870-964): UNKNOWN when no holder
addresses are provided; UNKNOWN when every trace of the checked holders fails
(`unknown_count == len(addresses_to_check)`); DANGER with the common funders
when some funder reaches the threshold; OK otherwise. -/
def check_cabal_topology (holders : List (String × Option String)) : CabalResult :=
  if holders.isEmpty then
    ⟨false, Level.unknown, [], "No holder addresses provided"⟩
  else if (cabalResolved holders).isEmpty then
    ⟨false, Level.unknown, [],
      "Could not trace any funding sources (timeout or unavailable)"⟩
  else if (cabalCommonFunders holders).isEmpty then
    ⟨false, Level.ok, [],
      "No star topology detected - holders have diverse funding sources"⟩
  else
    ⟨true, Level.danger, cabalCommonFunders holders,
      "CABAL DETECTED: Star topology found"⟩

lemma cabalCommonFunders_isEmpty_iff (holders : List (String × Option String)) :
    (cabalCommonFunders holders).isEmpty = true ↔
      ∀ f ∈ cabalResolved holders,
        (cabalResolved holders).count f < CABAL_COMMON_FUNDER_THRESHOLD := by
  unfold cabalCommonFunders
  rw [List.isEmpty_iff, List.map_eq_nil_iff, List.filter_eq_nil_iff]
  constructor
  · intro h f hf
    have := h f (List.mem_dedup.mpr hf)
    simpa [not_le] using this
  · intro h f hf
    have := h f (List.mem_dedup.mp hf)
    simp [not_le, this]

/-- C6: the level returned by the funding-graph tier is a trichotomy over the
funders resolved for the first `CABAL_TOP_HOLDERS_LIMIT` holders — UNKNOWN
iff no holder's funder resolves (including an empty holder list), DANGER iff
at least `CABAL_COMMON_FUNDER_THRESHOLD` (= 3) of the checked holders resolve
to one identical funder, OK iff at least one trace resolved but no funder
group reaches the threshold. -/
theorem check_cabal_topology_trichotomy (holders : List (String × Option String)) :
    ((check_cabal_topology holders).level = Level.unknown ↔
      cabalResolved holders = []) ∧
    ((check_cabal_topology holders).level = Level.danger ↔
      ∃ f ∈ cabalResolved holders,
        CABAL_COMMON_FUNDER_THRESHOLD ≤ (cabalResolved holders).count f) ∧
    ((check_cabal_topology holders).level = Level.ok ↔
      (cabalResolved holders ≠ [] ∧
        ∀ f ∈ cabalResolved holders,
          (cabalResolved holders).count f < CABAL_COMMON_FUNDER_THRESHOLD)) := by
  by_cases h0 : holders.isEmpty
  · have he : holders = [] := by
      simpa [List.isEmpty_iff] using h0
    subst he
    simp [check_cabal_topology, cabalResolved]
  · rw [show check_cabal_topology holders =
        (if (cabalResolved holders).isEmpty then
          ⟨false, Level.unknown, [],
            "Could not trace any funding sources (timeout or unavailable)"⟩
        else if (cabalCommonFunders holders).isEmpty then
          ⟨false, Level.ok, [],
            "No star topology detected - holders have diverse funding sources"⟩
        else
          ⟨true, Level.danger, cabalCommonFunders holders,
            "CABAL DETECTED: Star topology found"⟩) from by
      unfold check_cabal_topology
      rw [if_neg h0]]
    by_cases h1 : (cabalResolved holders).isEmpty
    · have hre : cabalResolved holders = [] := List.isEmpty_iff.mp h1
      rw [if_pos h1]
      simp [hre]
    · have hre : cabalResolved holders ≠ [] := by
        simpa [List.isEmpty_iff] using h1
      rw [if_neg h1]
      by_cases h2 : (cabalCommonFunders holders).isEmpty
      · rw [if_pos h2]
        have hall := (cabalCommonFunders_isEmpty_iff holders).mp h2
        refine ⟨?_, ?_, ?_⟩
        · simp [hre]
        · simp only [show (Level.ok = Level.danger) = False from by simp, false_iff]
          rintro ⟨f, hf, hc⟩
          exact absurd hc (not_le.mpr (hall f hf))
        · exact iff_of_true rfl ⟨hre, hall⟩
      · rw [if_neg h2]
        have hsome : ∃ f ∈ cabalResolved holders,
            CABAL_COMMON_FUNDER_THRESHOLD ≤ (cabalResolved holders).count f := by
          by_contra hnone
          push_neg at hnone
          exact h2 ((cabalCommonFunders_isEmpty_iff holders).mpr hnone)
        refine ⟨by simp [hre], by simp [hsome], ?_⟩
        rcases hsome with ⟨f, hf, hc⟩
        simp only [show (Level.danger = Level.ok) = False from by simp, false_iff]
        rintro ⟨-, hall⟩
        exact absurd hc (not_le.mpr (hall f hf))
